import Mathlib

/-!
Verification of the Citadel-Agent terminal front-ends.

The repository holds two interactive front-ends:
  src/citadel_cli.py           class CitadelTerminal (plain ANSI output)
  src/citadel_advanced_cli.py  class CitadelCLI      (rich-library output)

Both are read-eval-render loops: a screen prints itself, blocks for one
line of input, and dispatches on that line.  This file embeds the
dispatch logic, the credential check, the progress-bar construction and
the help-screen text of both front-ends as pure Lean functions and
proves the specification claims about them.
-/

/-- The named screens of the controller: Login, Dashboard and Help exist
in both front-ends; the remaining five are the secondary screens of
citadel_advanced_cli.py (manage_workflows, manage_nodes, show_monitoring,
show_security, show_settings). -/
inductive Screen where
  | Login
  | Dashboard
  | Help
  | WorkflowList
  | NodeList
  | Monitoring
  | Security
  | Settings
deriving DecidableEq, Repr

/-- The distinct rejection sites in the source: the authentication
failure branch (citadel_cli.py line 122, citadel_advanced_cli.py line
125), the command-not-recognized branch (citadel_cli.py line 209,
citadel_advanced_cli.py line 229, whose printed message embeds the
offending command), and the invalid-choice refusal of the
manage_workflows prompt (citadel_advanced_cli.py line 301, where
Prompt.ask re-prompts in place on input outside its choice list). -/
inductive Reason where
  | authenticationFailed
  | unrecognized (cmd : String)
  | invalidChoice (line : String)
deriving DecidableEq, Repr

/-- Abstract outcome of handling one line of input, following the spec
vocabulary: stay on the current screen, go to another screen, exit the
process with a code, or reject the input with a reason (the code prints
the reason and keeps the current screen). -/
inductive Transition where
  | stay
  | goto (s : Screen)
  | exit (code : Nat)
  | reject (r : Reason)
deriving DecidableEq, Repr

/-- Embedding of Python str.lower() as used on the ASCII command strings
of both front-ends (citadel_cli.py line 198, citadel_advanced_cli.py
lines 207-227). -/
def lowerString (s : String) : String :=
  String.mk (s.data.map Char.toLower)

/-- The process environment: a partial map from variable names to
values, read by os.getenv. -/
structure Env where
  vars : String → Option String

/-- An environment with neither ADMIN_USERNAME nor ADMIN_PASSWORD set,
so both os.getenv calls fall back to their defaults. -/
def envNone : Env := ⟨fun _ => none⟩

/-- citadel_cli.py line 112: admin_username = os.getenv("ADMIN_USERNAME", "admin"). -/
def adminUsername (e : Env) : String := (e.vars "ADMIN_USERNAME").getD "admin"

/-- citadel_cli.py line 113: admin_password = os.getenv("ADMIN_PASSWORD", "citadel"). -/
def adminPassword (e : Env) : String := (e.vars "ADMIN_PASSWORD").getD "citadel"

/-- How a transition moves the controller between screens: goto changes
the screen, exit ends the process (none), and stay or reject leave the
current screen in place (in the source, the rejection branches re-enter
the same screen: citadel_cli.py line 211 recurses into
display_dashboard, citadel_advanced_cli.py line 229 continues the while
loop, and the failed-login branches re-enter the login screen). -/
def applyTransition (cur : Screen) : Transition → Option Screen
  | .stay => some cur
  | .goto s => some s
  | .exit _ => none
  | .reject _ => some cur

namespace CitadelTerminal

/-- citadel_cli.py line 115: the credential comparison
username == admin_username and password == admin_password
(both components compared exactly). -/
def verify (e : Env) (username password : String) : Bool :=
  username == adminUsername e && password == adminPassword e

/-- Command handling of print_login_screen (citadel_cli.py lines
111-124): on a matching pair the code marks the session active and calls
display_dashboard (goto Dashboard); otherwise it prints an
authentication-failure message and re-enters print_login_screen (reject,
screen stays Login). -/
def print_login_handle (e : Env) (username password : String) : Transition :=
  if verify e username password then .goto .Dashboard
  else .reject .authenticationFailed

/-- Command dispatch of display_dashboard (citadel_cli.py lines
198-211): the input line is lowercased once, then compared against
"h", "esc", "quit"/"exit"; anything else prints a not-recognized message
(embedding the lowercased command) and re-enters display_dashboard. -/
def display_dashboard_handle (cmd : String) : Transition :=
  if lowerString cmd = "h" then .goto .Help
  else if lowerString cmd = "esc" then .goto .Login
  else if lowerString cmd = "quit" ∨ lowerString cmd = "exit" then .exit 0
  else .reject (.unrecognized (lowerString cmd))

/-- The command strings recognized by display_dashboard (lowercased). -/
def dashboardCommands : List String := ["h", "esc", "quit", "exit"]

/-- Input handling of show_help (citadel_cli.py lines 247-248): the
input line is read and discarded, then display_dashboard is entered;
every input line, whatever its content, goes to Dashboard. -/
def show_help_handle (_line : String) : Transition := .goto .Dashboard

end CitadelTerminal

/-- The names bound at module level in citadel_advanced_cli.py (lines
6-36 plus the top-level class and function statements): the imports are
getpass, sys, time, datetime, Dict, List, uuid, the rich names Console,
Panel, Table, Progress, SpinnerColumn, TextColumn, Prompt, Text, the
flag HAS_RICH, subprocess (bound in the ImportError fallback branch),
the console object, and the definitions CitadelCLI and main.  The
module never imports os. -/
def advancedModuleNames : List String :=
  ["getpass", "sys", "time", "datetime", "Dict", "List", "uuid",
   "Console", "Panel", "Table", "Progress", "SpinnerColumn", "TextColumn",
   "Prompt", "Text", "HAS_RICH", "subprocess", "console", "CitadelCLI", "main"]

/-- The Python runtime error relevant here: evaluating a name that is
not bound in any enclosing scope raises NameError. -/
inductive PyError where
  | nameError (name : String)
deriving DecidableEq, Repr

namespace CitadelCLI

/-- citadel_advanced_cli.py line 118: the credential comparison
username.lower() == admin_username.lower() and password == admin_password
(username compared case-insensitively, password exactly). -/
def verify (e : Env) (username password : String) : Bool :=
  lowerString username == lowerString (adminUsername e) && password == adminPassword e

/-- Outcome of one pass through show_login_screen
(citadel_advanced_cli.py lines 76-128) after the credentials are read:
line 115 evaluates the name os first; since os is not bound at module
level (see advancedModuleNames) this raises NameError before any
comparison, so neither branch of the line-118 test can run.  Were the
name bound, a matching pair would reach show_dashboard and a
non-matching pair the failure branch. -/
def show_login_outcome (e : Env) (username password : String) : Except PyError Transition :=
  if "os" ∈ advancedModuleNames then
    if verify e username password then .ok (.goto .Dashboard)
    else .ok (.reject .authenticationFailed)
  else .error (.nameError "os")

/-- Command dispatch of the while loop in show_dashboard
(citadel_advanced_cli.py lines 203-229): the input is lowercased at each
comparison; unrecognized input prints a message embedding the original
(non-lowercased) command and continues the loop. -/
def show_dashboard_handle (cmd : String) : Transition :=
  if lowerString cmd = "h" then .goto .Help
  else if lowerString cmd = "esc" then .goto .Login
  else if lowerString cmd ∈ ["quit", "exit", "q"] then .exit 0
  else if lowerString cmd = "dashboard" then .goto .Dashboard
  else if lowerString cmd = "workflow" then .goto .WorkflowList
  else if lowerString cmd = "nodes" then .goto .NodeList
  else if lowerString cmd = "monitor" then .goto .Monitoring
  else if lowerString cmd = "security" then .goto .Security
  else if lowerString cmd = "settings" then .goto .Settings
  else .reject (.unrecognized cmd)

/-- The command strings recognized by the show_dashboard loop
(lowercased). -/
def dashboardCommands : List String :=
  ["h", "esc", "quit", "exit", "q", "dashboard", "workflow", "nodes",
   "monitor", "security", "settings"]

/-- Input handling of show_help (citadel_advanced_cli.py lines 262-263):
the input line is read and discarded, then show_dashboard is entered. -/
def show_help_handle (_line : String) : Transition := .goto .Dashboard

end CitadelCLI

/-- The filled cell of the source progress bars (U+2588 FULL BLOCK). -/
def filledCell : Char := '█'

/-- The empty cell of the source progress bars (U+2591 LIGHT SHADE). -/
def emptyCell : Char := '░'

/-- Number of filled cells in a rendered bar. -/
def filledCount (s : String) : Nat := s.data.count filledCell

/-- Number of empty cells in a rendered bar. -/
def emptyCount (s : String) : Nat := s.data.count emptyCell

namespace CitadelTerminal

/-- The metric bars of display_dashboard (citadel_cli.py lines 163-164):
cpu_bar is built by string repetition as int(pct/10) filled blocks
followed by (10 - int(pct/10)) shade blocks.  For a nonnegative integer
percentage, Python int(pct/10) is the floor, matching Nat division, and
repeating a string a negative number of times yields the empty string,
matching truncated Nat subtraction.  No range check is performed. -/
def metric_bar (pct : Nat) : String :=
  String.mk (List.replicate (pct / 10) filledCell ++
             List.replicate (10 - pct / 10) emptyCell)

/-- The help_text lines of show_help (citadel_cli.py lines 218-242),
with the TerminalStyle.BOLD and RESET escapes spelled out.  The Build
line (source line 239) is a plain string literal without an f prefix, so
its braces and the datetime.now() call inside them are literal text: the
rendered help does not consult the clock, which is why the time argument
is unused. -/
def show_help_text (_now : String) : List String :=
  ["",
   "\x1b[1mAVAILABLE COMMANDS:\x1b[0m",
   "",
   "  dashboard     - Return to main dashboard",
   "  workflow      - Manage workflows (create, run, monitor)",
   "  nodes         - View and manage nodes",
   "  monitor       - Monitor system performance",
   "  security      - View security status and logs",
   "  settings      - Modify user settings",
   "",
   "\x1b[1mQUICK ACCESS KEYS:\x1b[0m",
   "",
   "  [H]         - Show this help",
   "  [ESC]       - Return to login",
   "  [CMD]       - Access console",
   "",
   "\x1b[1mSYSTEM INFORMATION:\x1b[0m",
   "",
   "  Version: 0.1.0",
   "  Engine: Foundation-Core v0.1.0",
   "  Build: \x7bdatetime.now().strftime(\x27%Y-%m-%d %H:%M:%S\x27)\x7d",
   "",
   "Press ENTER to return to dashboard..."]

/-- Call-stack depth of the login loop on a list of credential attempts:
print_login_screen reads one pair per invocation and, on failure, calls
itself at citadel_cli.py line 124 before the current frame can return
(Python performs no tail-call elimination), so each failed attempt
leaves one more frame live; a success or an exhausted input list stops
the count at the current frame. -/
def login_stack_depth (e : Env) : List (String × String) → Nat
  | [] => 1
  | (u, p) :: rest => if verify e u p then 1 else 1 + login_stack_depth e rest

/-- Call-stack depth of the dashboard loop on a list of command lines:
on an unrecognized command, display_dashboard calls itself at
citadel_cli.py line 211 before the current frame returns, so each
rejected command leaves one more frame live; any recognized command
leaves the loop. -/
def dashboard_stack_depth : List String → Nat
  | [] => 1
  | cmd :: rest =>
    match display_dashboard_handle cmd with
    | .reject _ => 1 + dashboard_stack_depth rest
    | _ => 1

end CitadelTerminal

namespace CitadelCLI

/-- The workflow progress bars and cpu/ram bars of show_dashboard
(citadel_advanced_cli.py lines 166 and 177-178): int(pct/5) filled
blocks followed by (20 - int(pct/5)) shade blocks, built by string
repetition with no range check (negative repetition counts yield the
empty string, matching truncated Nat subtraction). -/
def progress_bar (pct : Nat) : String :=
  String.mk (List.replicate (pct / 5) filledCell ++
             List.replicate (20 - pct / 5) emptyCell)

/-- The help_text string of show_help (citadel_advanced_cli.py lines
238-259): a triple-quoted template whose final placeholder is filled by
str.format with datetime.now().strftime, so the rendered help embeds
the wall-clock reading passed here as now. -/
def show_help_text (now : String) : String :=
  "\n[b]CITADEL-AGENT HELP[/b]\n[i]Command Reference[/i]\n\n" ++
  "[u]AVAILABLE COMMANDS:[/u]\n" ++
  "  dashboard     - Return to main dashboard\n" ++
  "  workflow      - Manage workflows (create, run, monitor)\n" ++
  "  nodes         - View and manage nodes\n" ++
  "  monitor       - Monitor system performance\n" ++
  "  security      - View security status and logs\n" ++
  "  settings      - Modify user settings\n\n" ++
  "[u]QUICK ACCESS KEYS:[/u]\n" ++
  "  [b]H[/b]         - Show this help\n" ++
  "  [b]ESC[/b]       - Return to login\n" ++
  "  [b]CMD[/b]       - Access console\n\n" ++
  "[u]SYSTEM INFORMATION:[/u]\n" ++
  "  Version: 0.1.0\n" ++
  "  Engine: Foundation-Core v0.1.0\n" ++
  "  Build: " ++ now ++ "\n        "

/-- Call-stack depth of the advanced login loop on a list of credential
attempts, under the counterfactual that the name os resolves (otherwise
every attempt aborts with NameError, see show_login_outcome): on
failure, show_login_screen calls itself at citadel_advanced_cli.py line
128 before the current frame returns. -/
def login_stack_depth (e : Env) : List (String × String) → Nat
  | [] => 1
  | (u, p) :: rest => if verify e u p then 1 else 1 + login_stack_depth e rest

/-- The choice list of the Prompt.ask call in manage_workflows
(citadel_advanced_cli.py line 301); matching is exact, since the call
requests no case folding. -/
def workflowChoices : List String := ["1", "2", "3", "4", "B"]

/-- Input handling of the manage_workflows prompt
(citadel_advanced_cli.py lines 301-311): Prompt.ask reads a line with
choices 1/2/3/4/B and default B, so a blank line becomes B; a line
outside the choices is refused by the prompt itself, which prints the
rich invalid-choice message and asks again without leaving the screen
(reject, screen unchanged); B enters show_dashboard; 1 simulates a
workflow creation and re-enters manage_workflows (WorkflowList again);
2, 3 and 4 match no branch, so the method returns and control falls
back into the show_dashboard command loop. -/
def manage_workflows_handle (line : String) : Transition :=
  let choice := if line = "" then "B" else line
  if choice ∈ workflowChoices then
    if choice = "B" then .goto .Dashboard
    else if choice = "1" then .goto .WorkflowList
    else .goto .Dashboard
  else .reject (.invalidChoice line)

/-- Input handling of manage_nodes (citadel_advanced_cli.py lines
319-320): the line is read and discarded, then show_dashboard. -/
def manage_nodes_handle (_line : String) : Transition := .goto .Dashboard

/-- Input handling of show_monitoring (citadel_advanced_cli.py lines
328-329): the line is read and discarded, then show_dashboard. -/
def show_monitoring_handle (_line : String) : Transition := .goto .Dashboard

/-- Input handling of show_security (citadel_advanced_cli.py lines
357-358): the line is read and discarded, then show_dashboard. -/
def show_security_handle (_line : String) : Transition := .goto .Dashboard

/-- Input handling of show_settings (citadel_advanced_cli.py lines
366-367): the line is read and discarded, then show_dashboard. -/
def show_settings_handle (_line : String) : Transition := .goto .Dashboard

end CitadelCLI

/-- show_help recognizes no command: the input line of citadel_cli.py
line 247 (and citadel_advanced_cli.py line 262) is read and discarded
without being compared against anything. -/
def helpCommands : List String := []

theorem progress_bar_parts (p : Nat) :
    (CitadelCLI.progress_bar p).length = p / 5 + (20 - p / 5) ∧
    filledCount (CitadelCLI.progress_bar p) = p / 5 ∧
    emptyCount (CitadelCLI.progress_bar p) = 20 - p / 5 := by
  refine ⟨?_, ?_, ?_⟩ <;>
    simp [CitadelCLI.progress_bar, filledCount, emptyCount, String.length,
          List.count_append, List.count_replicate, filledCell, emptyCell]

theorem metric_bar_parts (p : Nat) :
    (CitadelTerminal.metric_bar p).length = p / 10 + (10 - p / 10) ∧
    filledCount (CitadelTerminal.metric_bar p) = p / 10 ∧
    emptyCount (CitadelTerminal.metric_bar p) = 10 - p / 10 := by
  refine ⟨?_, ?_, ?_⟩ <;>
    simp [CitadelTerminal.metric_bar, filledCount, emptyCount, String.length,
          List.count_append, List.count_replicate, filledCell, emptyCell]

theorem display_dashboard_handle_unrecognized (cmd : String)
    (h : lowerString cmd ∉ CitadelTerminal.dashboardCommands) :
    CitadelTerminal.display_dashboard_handle cmd =
      Transition.reject (Reason.unrecognized (lowerString cmd)) := by
  have h1 : lowerString cmd ≠ "h" := fun e => h (by rw [e]; decide)
  have h2 : lowerString cmd ≠ "esc" := fun e => h (by rw [e]; decide)
  have h3 : lowerString cmd ≠ "quit" := fun e => h (by rw [e]; decide)
  have h4 : lowerString cmd ≠ "exit" := fun e => h (by rw [e]; decide)
  have hor : ¬(lowerString cmd = "quit" ∨ lowerString cmd = "exit") := by
    rintro (e | e)
    exacts [h3 e, h4 e]
  simp [CitadelTerminal.display_dashboard_handle, h1, h2, hor]

theorem show_dashboard_handle_unrecognized (cmd : String)
    (h : lowerString cmd ∉ CitadelCLI.dashboardCommands) :
    CitadelCLI.show_dashboard_handle cmd =
      Transition.reject (Reason.unrecognized cmd) := by
  have h1 : lowerString cmd ≠ "h" := fun e => h (by rw [e]; decide)
  have h2 : lowerString cmd ≠ "esc" := fun e => h (by rw [e]; decide)
  have h3 : lowerString cmd ≠ "quit" := fun e => h (by rw [e]; decide)
  have h4 : lowerString cmd ≠ "exit" := fun e => h (by rw [e]; decide)
  have h5 : lowerString cmd ≠ "q" := fun e => h (by rw [e]; decide)
  have h6 : lowerString cmd ≠ "dashboard" := fun e => h (by rw [e]; decide)
  have h7 : lowerString cmd ≠ "workflow" := fun e => h (by rw [e]; decide)
  have h8 : lowerString cmd ≠ "nodes" := fun e => h (by rw [e]; decide)
  have h9 : lowerString cmd ≠ "monitor" := fun e => h (by rw [e]; decide)
  have h10 : lowerString cmd ≠ "security" := fun e => h (by rw [e]; decide)
  have h11 : lowerString cmd ≠ "settings" := fun e => h (by rw [e]; decide)
  have hm : lowerString cmd ∉ (["quit", "exit", "q"] : List String) := by
    intro hmem
    simp only [List.mem_cons, List.not_mem_nil, or_false] at hmem
    rcases hmem with e | e | e
    exacts [h3 e, h4 e, h5 e]
  simp [CitadelCLI.show_dashboard_handle, h1, h2, hm, h6, h7, h8, h9, h10, h11]

theorem manage_workflows_handle_invalid (line : String)
    (h1 : line ∉ CitadelCLI.workflowChoices) (h2 : line ≠ "") :
    CitadelCLI.manage_workflows_handle line =
      Transition.reject (Reason.invalidChoice line) := by
  simp [CitadelCLI.manage_workflows_handle, h1, h2]

theorem lower_esc_excluded (cmd : String) (h : lowerString cmd = "esc") :
    cmd ∉ CitadelCLI.workflowChoices ∧ cmd ≠ "" := by
  have h4 : (lowerString cmd).data.length = cmd.data.length := by
    simp [lowerString]
  have hlen : cmd.data.length = 3 := by
    rw [← h4, h]
    decide
  constructor
  · intro hm
    simp only [CitadelCLI.workflowChoices, List.mem_cons,
               List.not_mem_nil, or_false] at hm
    rcases hm with e | e | e | e | e <;>
      (rw [e] at hlen; exact absurd hlen (by decide))
  · intro e
    rw [e] at hlen
    exact absurd hlen (by decide)

/-- C1: starting at Login, a credential pair equal to the pair the
authenticator expects (the ADMIN_USERNAME and ADMIN_PASSWORD
environment values, defaulting to admin and citadel) transitions to
Dashboard; every other pair is rejected as an authentication failure
and the current screen stays Login. -/
theorem c1_login_auth (e : Env) (u pw : String) :
    (u = adminUsername e → pw = adminPassword e →
      CitadelTerminal.print_login_handle e u pw = Transition.goto Screen.Dashboard ∧
      applyTransition Screen.Login (CitadelTerminal.print_login_handle e u pw) =
        some Screen.Dashboard) ∧
    (¬(u = adminUsername e ∧ pw = adminPassword e) →
      CitadelTerminal.print_login_handle e u pw =
        Transition.reject Reason.authenticationFailed ∧
      applyTransition Screen.Login (CitadelTerminal.print_login_handle e u pw) =
        some Screen.Login) := by
  constructor
  · intro hu hp
    have hv : CitadelTerminal.verify e u pw = true := by
      simp [CitadelTerminal.verify, hu, hp]
    rw [CitadelTerminal.print_login_handle, if_pos hv]
    exact ⟨rfl, rfl⟩
  · intro hne
    have hv : ¬(CitadelTerminal.verify e u pw = true) := by
      simp only [CitadelTerminal.verify, Bool.and_eq_true, beq_iff_eq]
      exact hne
    rw [CitadelTerminal.print_login_handle, if_neg hv]
    exact ⟨rfl, rfl⟩

theorem c1_login_auth_witness :
    (CitadelTerminal.print_login_handle envNone "admin" "citadel" =
        Transition.goto Screen.Dashboard ∧
      applyTransition Screen.Login
          (CitadelTerminal.print_login_handle envNone "admin" "citadel") =
        some Screen.Dashboard) ∧
    (CitadelTerminal.print_login_handle envNone "root" "citadel" =
        Transition.reject Reason.authenticationFailed ∧
      applyTransition Screen.Login
          (CitadelTerminal.print_login_handle envNone "root" "citadel") =
        some Screen.Login) :=
  ⟨(c1_login_auth envNone "admin" "citadel").1 (by decide) (by decide),
   (c1_login_auth envNone "root" "citadel").2 (by decide)⟩

/-- C2: in the advanced front-end every login attempt ends in a
NameError: show_login_screen evaluates the name os at line 115 but the
module never binds it, so for every environment and every credential
pair the outcome is the uncaught NameError, never a transition, and in
particular the authentication-success branch is unreachable. -/
theorem c2_advanced_login_name_error (e : Env) (u pw : String) :
    CitadelCLI.show_login_outcome e u pw =
      Except.error (PyError.nameError "os") := by
  rw [CitadelCLI.show_login_outcome, if_neg (by decide)]

/-- C3 counterexample: at the workflow progress value 8 (the API
Monitor card, fraction 8/100 over the fixed width 20) the source bar
contains 1 filled cell, but round(fraction * width) = round(1.6) = 2;
the code truncates instead of rounding. -/
theorem c3_round_counterexample :
    (filledCount (CitadelCLI.progress_bar 8) : ℤ) ≠
      round ((8 : ℚ) / 100 * 20) := by
  have h1 : filledCount (CitadelCLI.progress_bar 8) = 1 := by decide
  have h2 : round ((8 : ℚ) / 100 * 20) = 2 := by norm_num [round_eq]
  rw [h1, h2]
  decide

/-- C3 (amended): for every integer percentage p with p ≤ 100, the
advanced bar (fixed width 20) has exactly 20 cells of which exactly
floor(p/100 * 20) are filled and the rest empty, and the basic bar
(fixed width 10) has exactly 10 cells of which exactly
floor(p/100 * 10) are filled and the rest empty: the filled count is
the floor, not the rounding, of fraction times width, and the widths
are fixed constants rather than parameters. -/
theorem c3_progress_bar_floor (p : Nat) (hp : p ≤ 100) :
    ((CitadelCLI.progress_bar p).length = 20 ∧
      filledCount (CitadelCLI.progress_bar p) = p * 20 / 100 ∧
      emptyCount (CitadelCLI.progress_bar p) = 20 - p * 20 / 100) ∧
    ((CitadelTerminal.metric_bar p).length = 10 ∧
      filledCount (CitadelTerminal.metric_bar p) = p * 10 / 100 ∧
      emptyCount (CitadelTerminal.metric_bar p) = 10 - p * 10 / 100) := by
  obtain ⟨l20, f20, e20⟩ := progress_bar_parts p
  obtain ⟨l10, f10, e10⟩ := metric_bar_parts p
  refine ⟨⟨?_, ?_, ?_⟩, ⟨?_, ?_, ?_⟩⟩
  · rw [l20]; omega
  · rw [f20]; omega
  · rw [e20]; omega
  · rw [l10]; omega
  · rw [f10]; omega
  · rw [e10]; omega

theorem c3_progress_bar_floor_witness :
    62 ≤ 100 ∧
    (((CitadelCLI.progress_bar 62).length = 20 ∧
        filledCount (CitadelCLI.progress_bar 62) = 62 * 20 / 100 ∧
        emptyCount (CitadelCLI.progress_bar 62) = 20 - 62 * 20 / 100) ∧
      ((CitadelTerminal.metric_bar 62).length = 10 ∧
        filledCount (CitadelTerminal.metric_bar 62) = 62 * 10 / 100 ∧
        emptyCount (CitadelTerminal.metric_bar 62) = 10 - 62 * 10 / 100)) :=
  ⟨by decide, c3_progress_bar_floor 62 (by decide)⟩

/-- C4 counterexample: the Help screen is a screen of the controller,
yet handling the line esc there does not transition to Login: the input
is discarded and the controller returns to Dashboard. -/
theorem c4_esc_help_counterexample :
    CitadelTerminal.show_help_handle "esc" ≠ Transition.goto Screen.Login ∧
    CitadelTerminal.show_help_handle "esc" = Transition.goto Screen.Dashboard := by
  decide

/-- C4 (amended): at the Dashboard of either front-end, handling esc in
any letter case transitions to Login; no other screen dispatches esc to
Login: the Help screens and the advanced input-pause screens (NodeList,
Monitoring, Security, Settings) discard the line and return to
Dashboard, while the WorkflowList prompt, whose recognized choices are
1/2/3/4/B, refuses esc in place and the screen stays WorkflowList. -/
theorem c4_esc_dispatch (cmd line : String) (h : lowerString cmd = "esc") :
    CitadelTerminal.display_dashboard_handle cmd = Transition.goto Screen.Login ∧
    CitadelCLI.show_dashboard_handle cmd = Transition.goto Screen.Login ∧
    CitadelTerminal.show_help_handle line = Transition.goto Screen.Dashboard ∧
    CitadelCLI.show_help_handle line = Transition.goto Screen.Dashboard ∧
    CitadelCLI.manage_nodes_handle line = Transition.goto Screen.Dashboard ∧
    CitadelCLI.show_monitoring_handle line = Transition.goto Screen.Dashboard ∧
    CitadelCLI.show_security_handle line = Transition.goto Screen.Dashboard ∧
    CitadelCLI.show_settings_handle line = Transition.goto Screen.Dashboard ∧
    CitadelCLI.manage_workflows_handle cmd =
      Transition.reject (Reason.invalidChoice cmd) ∧
    applyTransition Screen.WorkflowList (CitadelCLI.manage_workflows_handle cmd) =
      some Screen.WorkflowList := by
  obtain ⟨hni, hne⟩ := lower_esc_excluded cmd h
  have hw := manage_workflows_handle_invalid cmd hni hne
  refine ⟨?_, ?_, rfl, rfl, rfl, rfl, rfl, rfl, hw, by rw [hw]; rfl⟩ <;>
    simp [CitadelTerminal.display_dashboard_handle,
          CitadelCLI.show_dashboard_handle, h]

theorem c4_esc_dispatch_witness :
    lowerString "ESC" = "esc" ∧
    (CitadelTerminal.display_dashboard_handle "ESC" = Transition.goto Screen.Login ∧
      CitadelCLI.show_dashboard_handle "ESC" = Transition.goto Screen.Login ∧
      CitadelTerminal.show_help_handle "x" = Transition.goto Screen.Dashboard ∧
      CitadelCLI.show_help_handle "x" = Transition.goto Screen.Dashboard ∧
      CitadelCLI.manage_nodes_handle "x" = Transition.goto Screen.Dashboard ∧
      CitadelCLI.show_monitoring_handle "x" = Transition.goto Screen.Dashboard ∧
      CitadelCLI.show_security_handle "x" = Transition.goto Screen.Dashboard ∧
      CitadelCLI.show_settings_handle "x" = Transition.goto Screen.Dashboard ∧
      CitadelCLI.manage_workflows_handle "ESC" =
        Transition.reject (Reason.invalidChoice "ESC") ∧
      applyTransition Screen.WorkflowList (CitadelCLI.manage_workflows_handle "ESC") =
        some Screen.WorkflowList) :=
  ⟨by decide, c4_esc_dispatch "ESC" "x" (by decide)⟩

/-- C5 counterexample: the input xyz is not a recognized command of the
Help screen (which recognizes none), yet handling it there does not
reject and does not leave the screen unchanged: the controller moves to
Dashboard. -/
theorem c5_help_unrecognized_counterexample :
    "xyz" ∉ helpCommands ∧
    CitadelTerminal.show_help_handle "xyz" = Transition.goto Screen.Dashboard ∧
    applyTransition Screen.Help (CitadelTerminal.show_help_handle "xyz") ≠
      some Screen.Help := by
  decide

/-- C5 (amended): at the Dashboard screens, every input string whose
lowercasing is outside the recognized command list is rejected with a
command-not-recognized reason and the screen stays Dashboard; at the
WorkflowList prompt, every nonempty line outside its recognized choices
1/2/3/4/B (a blank line defaults to B) is rejected in place and the
screen stays WorkflowList, while B returns to Dashboard and 1 re-enters
WorkflowList; the remaining secondary screens (Help, NodeList,
Monitoring, Security, Settings) dispatch no commands and return to
Dashboard on any line rather than rejecting it. -/
theorem c5_unrecognized_reject (cmd wline : String)
    (h : lowerString cmd ∉ CitadelCLI.dashboardCommands)
    (hw : wline ∉ CitadelCLI.workflowChoices) (hne : wline ≠ "") :
    CitadelTerminal.display_dashboard_handle cmd =
      Transition.reject (Reason.unrecognized (lowerString cmd)) ∧
    applyTransition Screen.Dashboard (CitadelTerminal.display_dashboard_handle cmd) =
      some Screen.Dashboard ∧
    CitadelCLI.show_dashboard_handle cmd =
      Transition.reject (Reason.unrecognized cmd) ∧
    applyTransition Screen.Dashboard (CitadelCLI.show_dashboard_handle cmd) =
      some Screen.Dashboard ∧
    CitadelCLI.manage_workflows_handle wline =
      Transition.reject (Reason.invalidChoice wline) ∧
    applyTransition Screen.WorkflowList (CitadelCLI.manage_workflows_handle wline) =
      some Screen.WorkflowList ∧
    CitadelCLI.manage_workflows_handle "B" = Transition.goto Screen.Dashboard ∧
    CitadelCLI.manage_workflows_handle "1" = Transition.goto Screen.WorkflowList ∧
    CitadelTerminal.show_help_handle wline = Transition.goto Screen.Dashboard ∧
    CitadelCLI.show_help_handle wline = Transition.goto Screen.Dashboard ∧
    CitadelCLI.manage_nodes_handle wline = Transition.goto Screen.Dashboard ∧
    CitadelCLI.show_monitoring_handle wline = Transition.goto Screen.Dashboard ∧
    CitadelCLI.show_security_handle wline = Transition.goto Screen.Dashboard ∧
    CitadelCLI.show_settings_handle wline = Transition.goto Screen.Dashboard := by
  have hb : lowerString cmd ∉ CitadelTerminal.dashboardCommands := by
    intro hmem
    simp only [CitadelTerminal.dashboardCommands, List.mem_cons,
               List.not_mem_nil, or_false] at hmem
    rcases hmem with e | e | e | e <;> exact h (by rw [e]; decide)
  have e1 := display_dashboard_handle_unrecognized cmd hb
  have e2 := show_dashboard_handle_unrecognized cmd h
  have e3 := manage_workflows_handle_invalid wline hw hne
  rw [e1, e2, e3]
  exact ⟨rfl, rfl, rfl, rfl, rfl, rfl, by decide, by decide,
         rfl, rfl, rfl, rfl, rfl, rfl⟩

theorem c5_unrecognized_reject_witness :
    lowerString "xyz" ∉ CitadelCLI.dashboardCommands ∧
    "xyz" ∉ CitadelCLI.workflowChoices ∧ "xyz" ≠ "" ∧
    (CitadelTerminal.display_dashboard_handle "xyz" =
        Transition.reject (Reason.unrecognized (lowerString "xyz")) ∧
      applyTransition Screen.Dashboard
          (CitadelTerminal.display_dashboard_handle "xyz") = some Screen.Dashboard ∧
      CitadelCLI.show_dashboard_handle "xyz" =
        Transition.reject (Reason.unrecognized "xyz") ∧
      applyTransition Screen.Dashboard
          (CitadelCLI.show_dashboard_handle "xyz") = some Screen.Dashboard ∧
      CitadelCLI.manage_workflows_handle "xyz" =
        Transition.reject (Reason.invalidChoice "xyz") ∧
      applyTransition Screen.WorkflowList
          (CitadelCLI.manage_workflows_handle "xyz") = some Screen.WorkflowList ∧
      CitadelCLI.manage_workflows_handle "B" = Transition.goto Screen.Dashboard ∧
      CitadelCLI.manage_workflows_handle "1" = Transition.goto Screen.WorkflowList ∧
      CitadelTerminal.show_help_handle "xyz" = Transition.goto Screen.Dashboard ∧
      CitadelCLI.show_help_handle "xyz" = Transition.goto Screen.Dashboard ∧
      CitadelCLI.manage_nodes_handle "xyz" = Transition.goto Screen.Dashboard ∧
      CitadelCLI.show_monitoring_handle "xyz" = Transition.goto Screen.Dashboard ∧
      CitadelCLI.show_security_handle "xyz" = Transition.goto Screen.Dashboard ∧
      CitadelCLI.show_settings_handle "xyz" = Transition.goto Screen.Dashboard) :=
  ⟨by decide, by decide, by decide,
   c5_unrecognized_reject "xyz" "xyz" (by decide) (by decide) (by decide)⟩

/-- C6 counterexample: in the basic front-end the Dashboard recognizes
only quit and exit; the command q is not recognized there and does not
exit, refuting the claim that q yields Exit(0) from every screen. -/
theorem c6_q_basic_counterexample :
    CitadelTerminal.display_dashboard_handle "q" ≠ Transition.exit 0 ∧
    CitadelTerminal.display_dashboard_handle "q" =
      Transition.reject (Reason.unrecognized "q") := by
  decide

/-- C6 (amended): at the Dashboard, quit and exit (case-insensitive)
yield Exit(0) in both front-ends, and q does so in the advanced
front-end only; the transition ends the process.  Screens other than
the Dashboard do not dispatch these commands. -/
theorem c6_quit_exit (ca cb : String)
    (h1 : lowerString ca = "quit" ∨ lowerString ca = "exit")
    (h2 : lowerString cb ∈ (["quit", "exit", "q"] : List String)) :
    CitadelTerminal.display_dashboard_handle ca = Transition.exit 0 ∧
    CitadelCLI.show_dashboard_handle cb = Transition.exit 0 ∧
    applyTransition Screen.Dashboard (CitadelTerminal.display_dashboard_handle ca) =
      none := by
  have hbasic : CitadelTerminal.display_dashboard_handle ca = Transition.exit 0 := by
    rcases h1 with e | e <;> simp [CitadelTerminal.display_dashboard_handle, e]
  have hadv : CitadelCLI.show_dashboard_handle cb = Transition.exit 0 := by
    simp only [List.mem_cons, List.not_mem_nil, or_false] at h2
    rcases h2 with e | e | e <;> simp [CitadelCLI.show_dashboard_handle, e]
  exact ⟨hbasic, hadv, by rw [hbasic]; rfl⟩

theorem c6_quit_exit_witness :
    (lowerString "QUIT" = "quit" ∨ lowerString "QUIT" = "exit") ∧
    lowerString "q" ∈ (["quit", "exit", "q"] : List String) ∧
    (CitadelTerminal.display_dashboard_handle "QUIT" = Transition.exit 0 ∧
      CitadelCLI.show_dashboard_handle "q" = Transition.exit 0 ∧
      applyTransition Screen.Dashboard
          (CitadelTerminal.display_dashboard_handle "QUIT") = none) :=
  ⟨Or.inl (by decide), by decide, c6_quit_exit "QUIT" "q" (Or.inl (by decide)) (by decide)⟩

/-- C7 counterexample: at progress 150 (fraction 1.5, outside [0,1])
the advanced render does not fail: it produces a 30-cell bar, all
filled, overflowing the nominal width of 20. -/
theorem c7_overrange_counterexample :
    (CitadelCLI.progress_bar 150).length = 30 ∧
    filledCount (CitadelCLI.progress_bar 150) = 30 ∧
    emptyCount (CitadelCLI.progress_bar 150) = 0 := by
  decide

/-- C7 (amended): the render code performs no range validation and has
no InvalidArgument error path: for every percentage p at or above 100
the bars are still produced, consisting of floor(p/5) (resp.
floor(p/10)) filled cells and no empty cells, so above 104 (resp. 109)
the output even exceeds the nominal width; the widths are fixed
positive constants, so a nonpositive width cannot arise. -/
theorem c7_no_range_check (p : Nat) (hp : 100 ≤ p) :
    ((CitadelCLI.progress_bar p).length = p / 5 ∧
      filledCount (CitadelCLI.progress_bar p) = p / 5 ∧
      emptyCount (CitadelCLI.progress_bar p) = 0) ∧
    ((CitadelTerminal.metric_bar p).length = p / 10 ∧
      filledCount (CitadelTerminal.metric_bar p) = p / 10 ∧
      emptyCount (CitadelTerminal.metric_bar p) = 0) := by
  obtain ⟨l20, f20, e20⟩ := progress_bar_parts p
  obtain ⟨l10, f10, e10⟩ := metric_bar_parts p
  refine ⟨⟨?_, f20, ?_⟩, ⟨?_, f10, ?_⟩⟩
  · rw [l20]; omega
  · rw [e20]; omega
  · rw [l10]; omega
  · rw [e10]; omega

theorem c7_no_range_check_witness :
    100 ≤ 150 ∧
    (((CitadelCLI.progress_bar 150).length = 150 / 5 ∧
        filledCount (CitadelCLI.progress_bar 150) = 150 / 5 ∧
        emptyCount (CitadelCLI.progress_bar 150) = 0) ∧
      ((CitadelTerminal.metric_bar 150).length = 150 / 10 ∧
        filledCount (CitadelTerminal.metric_bar 150) = 150 / 10 ∧
        emptyCount (CitadelTerminal.metric_bar 150) = 0)) :=
  ⟨by decide, c7_no_range_check 150 (by decide)⟩

set_option maxRecDepth 8192 in
/-- C8 counterexample: the advanced help render is not a function of
the ScreenState alone: its Build line embeds the wall-clock reading, so
two renders with no state mutation in between, one second apart,
produce different bytes. -/
theorem c8_advanced_help_time_counterexample :
    CitadelCLI.show_help_text "2025-01-01 00:00:00" ≠
    CitadelCLI.show_help_text "2025-01-01 00:00:01" := by
  decide

/-- C8 (amended): rendering is deterministic given the ambient clock:
the basic help render ignores the clock entirely (its Build line is a
literal, non-interpolated placeholder), so any two renders of the same
state are byte-identical, and the advanced help render is a pure
function of the clock reading, so two renders agree whenever the clock
reading does. -/
theorem c8_render_deterministic (t t' : String) :
    CitadelTerminal.show_help_text t = CitadelTerminal.show_help_text t' ∧
    (t = t' → CitadelCLI.show_help_text t = CitadelCLI.show_help_text t') :=
  ⟨rfl, fun h => by rw [h]⟩

theorem c8_render_deterministic_witness :
    CitadelTerminal.show_help_text "15:00:00" =
      CitadelTerminal.show_help_text "15:00:01" ∧
    CitadelCLI.show_help_text "15:00:00" = CitadelCLI.show_help_text "15:00:00" :=
  ⟨(c8_render_deterministic "15:00:00" "15:00:01").1,
   (c8_render_deterministic "15:00:00" "15:00:00").2 rfl⟩

/-- C9 counterexample: the two front-ends do not make the same
authentication decision for every credential pair: with the default
environment, the pair (ADMIN, citadel) is rejected by the basic
comparison (exact match) and accepted by the advanced comparison
(case-insensitive username). -/
theorem c9_auth_differs_counterexample :
    CitadelTerminal.verify envNone "ADMIN" "citadel" = false ∧
    CitadelCLI.verify envNone "ADMIN" "citadel" = true := by
  decide

/-- C9 (amended): the two front-ends agree on the four Dashboard
commands they share (h, esc, quit, exit, case-insensitively), and every
credential pair the basic front-end accepts is also accepted by the
advanced comparison; but they are not equivalent: the advanced
front-end recognizes additional commands (q and the named screens),
accepts case-variant usernames the basic one rejects, and its login
aborts with a NameError before the comparison runs. -/
theorem c9_partial_agreement (cmd : String) (e : Env) (u pw : String)
    (hc : lowerString cmd ∈ CitadelTerminal.dashboardCommands)
    (hv : CitadelTerminal.verify e u pw = true) :
    CitadelTerminal.display_dashboard_handle cmd =
      CitadelCLI.show_dashboard_handle cmd ∧
    CitadelCLI.verify e u pw = true := by
  constructor
  · simp only [CitadelTerminal.dashboardCommands, List.mem_cons,
               List.not_mem_nil, or_false] at hc
    rcases hc with e1 | e1 | e1 | e1 <;>
      simp [CitadelTerminal.display_dashboard_handle,
            CitadelCLI.show_dashboard_handle, e1]
  · simp only [CitadelTerminal.verify, Bool.and_eq_true, beq_iff_eq] at hv
    obtain ⟨hu, hp⟩ := hv
    simp [CitadelCLI.verify, hu, hp]

theorem c9_partial_agreement_witness :
    lowerString "ESC" ∈ CitadelTerminal.dashboardCommands ∧
    CitadelTerminal.verify envNone "admin" "citadel" = true ∧
    (CitadelTerminal.display_dashboard_handle "ESC" =
        CitadelCLI.show_dashboard_handle "ESC" ∧
      CitadelCLI.verify envNone "admin" "citadel" = true) :=
  ⟨by decide, by decide,
   c9_partial_agreement "ESC" envNone "admin" "citadel" (by decide) (by decide)⟩

/-- C10: the screen transitions of the basic front-end are implemented
by mutual recursion without tail-call elimination, not by a loop: a run
of n consecutive failed login attempts keeps n + 1 print_login_screen
frames live, a run of n consecutive unrecognized dashboard commands
keeps n + 1 display_dashboard frames live, and hence for every bound
there is an input sequence whose stack depth exceeds it. -/
theorem c10_recursion_depth (e : Env) (u pw cmd : String)
    (hfail : CitadelTerminal.verify e u pw = false)
    (hcmd : lowerString cmd ∉ CitadelTerminal.dashboardCommands) :
    (∀ n, CitadelTerminal.login_stack_depth e (List.replicate n (u, pw)) = n + 1) ∧
    (∀ n, CitadelTerminal.dashboard_stack_depth (List.replicate n cmd) = n + 1) ∧
    (∀ bound, ∃ n,
      bound < CitadelTerminal.login_stack_depth e (List.replicate n (u, pw))) := by
  have hrej := display_dashboard_handle_unrecognized cmd hcmd
  have hlogin : ∀ n,
      CitadelTerminal.login_stack_depth e (List.replicate n (u, pw)) = n + 1 := by
    intro n
    induction n with
    | zero => rfl
    | succ k ih =>
      rw [List.replicate_succ, CitadelTerminal.login_stack_depth, hfail]
      simp [ih]
      omega
  have hdash : ∀ n,
      CitadelTerminal.dashboard_stack_depth (List.replicate n cmd) = n + 1 := by
    intro n
    induction n with
    | zero => rfl
    | succ k ih =>
      rw [List.replicate_succ, CitadelTerminal.dashboard_stack_depth, hrej]
      simp [ih]
      omega
  exact ⟨hlogin, hdash, fun bound => ⟨bound, by rw [hlogin bound]; omega⟩⟩

theorem c10_recursion_depth_witness :
    CitadelTerminal.verify envNone "guest" "guest" = false ∧
    lowerString "xyzzy" ∉ CitadelTerminal.dashboardCommands ∧
    CitadelTerminal.login_stack_depth envNone
        (List.replicate 3 ("guest", "guest")) = 3 + 1 ∧
    CitadelTerminal.dashboard_stack_depth (List.replicate 3 "xyzzy") = 3 + 1 :=
  ⟨by decide, by decide,
   (c10_recursion_depth envNone "guest" "guest" "xyzzy" (by decide) (by decide)).1 3,
   (c10_recursion_depth envNone "guest" "guest" "xyzzy" (by decide) (by decide)).2.1 3⟩
